import Mathlib

/-!
Verification of the scoring, confidence, and ranking engine of a
resume-vs-job-description analyzer.  The Python source is embedded
shallowly: floating-point arithmetic is modelled over the rationals,
the external collaborators (file loading, the embedding provider and
the vector index) are parameters of the embedded pipeline, and every
embedded function keeps the name of the source function it models.
-/

/-- Source: SimilarityCalculator.enhance_similarity_score
(src/core/similarity_calculator.py).  Piecewise-linear remap of a raw
cosine similarity used in single/detailed mode. -/
def enhance_similarity_score (raw_score : ℚ) : ℚ :=
  if raw_score < 0.15 then raw_score * 2
  else if raw_score < 0.3 then 0.3 + (raw_score - 0.15) * 2
  else if raw_score < 0.6 then 0.45 + (raw_score - 0.3) * 1.5
  else 0.9 + (raw_score - 0.6) * 0.25

/-- Source: BatchProcessor._enhance_batch_score
(src/services/batch_processor.py).  The more generous piecewise-linear
remap used in batch mode. -/
def enhance_batch_score (raw_score : ℚ) : ℚ :=
  if raw_score < 0.2 then raw_score * 1.5
  else if raw_score < 0.4 then 0.35 + (raw_score - 0.2) * 2.0
  else if raw_score < 0.6 then 0.65 + (raw_score - 0.4) * 1.25
  else 0.85 + (raw_score - 0.6) * 0.375

/-- Pointwise (epsilon-delta) continuity of a rational function at a
point; used to settle the continuity clauses of the spec. -/
def ContinuousAtQ (f : ℚ → ℚ) (b : ℚ) : Prop :=
  ∀ ε : ℚ, 0 < ε → ∃ δ : ℚ, 0 < δ ∧ ∀ x : ℚ, |x - b| < δ → |f x - f b| < ε

lemma enhance_eval_left (x : ℚ) (h1 : 0.15 ≤ x) (h2 : x < 0.3) :
    enhance_similarity_score x = 0.3 + (x - 0.15) * 2 := by
  unfold enhance_similarity_score
  rw [if_neg (by linarith), if_pos h2]

lemma enhance_at_breakpoint : enhance_similarity_score 0.3 = 0.45 := by
  unfold enhance_similarity_score; norm_num

lemma enhance_cont_at_015 : ContinuousAtQ enhance_similarity_score 0.15 := by
  intro ε hε
  refine ⟨min (ε / 2) 0.15, lt_min (by linarith) (by norm_num), ?_⟩
  intro x hx
  have h1 : |x - 0.15| < ε / 2 := lt_of_lt_of_le hx (min_le_left _ _)
  have h2 : |x - 0.15| < 0.15 := lt_of_lt_of_le hx (min_le_right _ _)
  rw [abs_lt] at h1 h2
  have hb : enhance_similarity_score 0.15 = 0.3 := by
    unfold enhance_similarity_score; norm_num
  rw [hb]
  unfold enhance_similarity_score
  split_ifs with ha hc hd
  · rw [abs_lt]; constructor <;> linarith
  · rw [abs_lt]; constructor <;> linarith
  · linarith [h2.2]
  · linarith [h2.2]

lemma enhance_cont_at_06 : ContinuousAtQ enhance_similarity_score 0.6 := by
  intro ε hε
  refine ⟨min (ε / 2) 0.3, lt_min (by linarith) (by norm_num), ?_⟩
  intro x hx
  have h1 : |x - 0.6| < ε / 2 := lt_of_lt_of_le hx (min_le_left _ _)
  have h2 : |x - 0.6| < 0.3 := lt_of_lt_of_le hx (min_le_right _ _)
  rw [abs_lt] at h1 h2
  have hb : enhance_similarity_score 0.6 = 0.9 := by
    unfold enhance_similarity_score; norm_num
  rw [hb]
  unfold enhance_similarity_score
  split_ifs with ha hc hd
  · linarith [h2.1]
  · linarith [h2.1]
  · rw [abs_lt]; constructor <;> linarith
  · rw [abs_lt]; constructor <;> linarith

lemma enhance_discont_at_03 : ¬ ContinuousAtQ enhance_similarity_score 0.3 := by
  intro h
  obtain ⟨δ, hδ, hall⟩ := h (1 / 10) (by norm_num)
  have hmin : 0 < min δ (1 / 20) := lt_min hδ (by norm_num)
  set t : ℚ := min δ (1 / 20) / 2 with ht
  have ht0 : 0 < t := by positivity
  have ht1 : t ≤ 1 / 40 := by
    have := min_le_right δ (1 / 20); rw [ht]; linarith
  have ht2 : t < δ := by
    have := min_le_left δ (1 / 20); rw [ht]; linarith
  have habs : |(0.3 - t : ℚ) - 0.3| = t := by
    rw [show (0.3 - t : ℚ) - 0.3 = -t by ring, abs_neg, abs_of_pos ht0]
  have hx := hall (0.3 - t) (by rw [habs]; exact ht2)
  rw [enhance_eval_left (0.3 - t) (by linarith) (by linarith),
    enhance_at_breakpoint, abs_lt] at hx
  linarith [hx.2]

lemma batch_eval_piece1 (x : ℚ) (h : x < 0.2) :
    enhance_batch_score x = x * 1.5 := by
  unfold enhance_batch_score
  rw [if_pos h]

lemma batch_eval_piece2 (x : ℚ) (h1 : 0.2 ≤ x) (h2 : x < 0.4) :
    enhance_batch_score x = 0.35 + (x - 0.2) * 2.0 := by
  unfold enhance_batch_score
  rw [if_neg (by linarith), if_pos h2]

lemma batch_eval_piece3 (x : ℚ) (h1 : 0.4 ≤ x) (h2 : x < 0.6) :
    enhance_batch_score x = 0.65 + (x - 0.4) * 1.25 := by
  unfold enhance_batch_score
  rw [if_neg (by linarith), if_neg (by linarith), if_pos h2]

lemma batch_discont_at_02 : ¬ ContinuousAtQ enhance_batch_score 0.2 := by
  intro h
  obtain ⟨δ, hδ, hall⟩ := h (1 / 25) (by norm_num)
  have hmin : 0 < min δ (1 / 10) := lt_min hδ (by norm_num)
  set t : ℚ := min δ (1 / 10) / 2 with ht
  have ht0 : 0 < t := by positivity
  have ht2 : t < δ := by
    have := min_le_left δ (1 / 10); rw [ht]; linarith
  have habs : |(0.2 - t : ℚ) - 0.2| = t := by
    rw [show (0.2 - t : ℚ) - 0.2 = -t by ring, abs_neg, abs_of_pos ht0]
  have hx := hall (0.2 - t) (by rw [habs]; exact ht2)
  have hb : enhance_batch_score 0.2 = 0.35 := by
    unfold enhance_batch_score; norm_num
  rw [batch_eval_piece1 (0.2 - t) (by linarith), hb, abs_lt] at hx
  linarith [hx.1]

lemma batch_discont_at_04 : ¬ ContinuousAtQ enhance_batch_score 0.4 := by
  intro h
  obtain ⟨δ, hδ, hall⟩ := h (1 / 20) (by norm_num)
  have hmin : 0 < min δ (1 / 20) := lt_min hδ (by norm_num)
  set t : ℚ := min δ (1 / 20) / 2 with ht
  have ht0 : 0 < t := by positivity
  have ht1 : t ≤ 1 / 40 := by
    have := min_le_right δ (1 / 20); rw [ht]; linarith
  have ht2 : t < δ := by
    have := min_le_left δ (1 / 20); rw [ht]; linarith
  have habs : |(0.4 - t : ℚ) - 0.4| = t := by
    rw [show (0.4 - t : ℚ) - 0.4 = -t by ring, abs_neg, abs_of_pos ht0]
  have hx := hall (0.4 - t) (by rw [habs]; exact ht2)
  have hb : enhance_batch_score 0.4 = 0.65 := by
    unfold enhance_batch_score; norm_num
  rw [batch_eval_piece2 (0.4 - t) (by linarith) (by linarith), hb, abs_lt] at hx
  linarith [hx.2]

lemma batch_discont_at_06 : ¬ ContinuousAtQ enhance_batch_score 0.6 := by
  intro h
  obtain ⟨δ, hδ, hall⟩ := h (1 / 40) (by norm_num)
  have hmin : 0 < min δ (1 / 25) := lt_min hδ (by norm_num)
  set t : ℚ := min δ (1 / 25) / 2 with ht
  have ht0 : 0 < t := by positivity
  have ht1 : t ≤ 1 / 50 := by
    have := min_le_right δ (1 / 25); rw [ht]; linarith
  have ht2 : t < δ := by
    have := min_le_left δ (1 / 25); rw [ht]; linarith
  have habs : |(0.6 - t : ℚ) - 0.6| = t := by
    rw [show (0.6 - t : ℚ) - 0.6 = -t by ring, abs_neg, abs_of_pos ht0]
  have hx := hall (0.6 - t) (by rw [habs]; exact ht2)
  have hb : enhance_batch_score 0.6 = 0.85 := by
    unfold enhance_batch_score; norm_num
  rw [batch_eval_piece3 (0.6 - t) (by linarith) (by linarith), hb, abs_lt] at hx
  linarith [hx.2]

/-- Claim C1 counterexample: both transforms fail monotonicity (hence the
claimed conjunction) on [0,1]: ENHANCE drops from 0.58 at 0.29 to 0.45 at
0.3, and BATCH_ENHANCE drops from 0.73 at 0.39 to 0.65 at 0.4. -/
theorem claim_C1_counterexample :
    ((0 : ℚ) ≤ 0.29 ∧ (0.29 : ℚ) ≤ 0.3 ∧ (0.3 : ℚ) ≤ 1 ∧
      enhance_similarity_score 0.3 < enhance_similarity_score 0.29) ∧
    ((0 : ℚ) ≤ 0.39 ∧ (0.39 : ℚ) ≤ 0.4 ∧ (0.4 : ℚ) ≤ 1 ∧
      enhance_batch_score 0.4 < enhance_batch_score 0.39) := by
  constructor
  · refine ⟨by norm_num, by norm_num, by norm_num, ?_⟩
    unfold enhance_similarity_score; norm_num
  · refine ⟨by norm_num, by norm_num, by norm_num, ?_⟩
    unfold enhance_batch_score; norm_num

/-- Claim C1 (amended): ENHANCE and BATCH_ENHANCE map 0 to 0.  ENHANCE is
monotone non-decreasing below 0.3 and from 0.3 on, and is continuous at
the breakpoints 0.15 and 0.6, but it is discontinuous at 0.3 (where it
jumps down), so it is neither monotone on all of [0,1] nor continuous at
every breakpoint.  BATCH_ENHANCE is monotone non-decreasing below 0.4,
on [0.4, 0.6) and from 0.6 on, but it is discontinuous at each of its
breakpoints 0.2, 0.4 and 0.6. -/
theorem claim_C1_amended :
    enhance_similarity_score 0 = 0 ∧ enhance_batch_score 0 = 0 ∧
    (∀ x y : ℚ, x ≤ y → y < 0.3 →
      enhance_similarity_score x ≤ enhance_similarity_score y) ∧
    (∀ x y : ℚ, 0.3 ≤ x → x ≤ y →
      enhance_similarity_score x ≤ enhance_similarity_score y) ∧
    ContinuousAtQ enhance_similarity_score 0.15 ∧
    ContinuousAtQ enhance_similarity_score 0.6 ∧
    ¬ ContinuousAtQ enhance_similarity_score 0.3 ∧
    (∀ x y : ℚ, x ≤ y → y < 0.4 →
      enhance_batch_score x ≤ enhance_batch_score y) ∧
    (∀ x y : ℚ, 0.4 ≤ x → x ≤ y → y < 0.6 →
      enhance_batch_score x ≤ enhance_batch_score y) ∧
    (∀ x y : ℚ, 0.6 ≤ x → x ≤ y →
      enhance_batch_score x ≤ enhance_batch_score y) ∧
    ¬ ContinuousAtQ enhance_batch_score 0.2 ∧
    ¬ ContinuousAtQ enhance_batch_score 0.4 ∧
    ¬ ContinuousAtQ enhance_batch_score 0.6 := by
  refine ⟨by unfold enhance_similarity_score; norm_num,
    by unfold enhance_batch_score; norm_num, ?_, ?_, enhance_cont_at_015, enhance_cont_at_06,
    enhance_discont_at_03, ?_, ?_, ?_, batch_discont_at_02, batch_discont_at_04,
    batch_discont_at_06⟩
  · intro x y hxy hy
    unfold enhance_similarity_score
    split_ifs <;> linarith
  · intro x y hx hxy
    unfold enhance_similarity_score
    split_ifs <;> linarith
  · intro x y hxy hy
    unfold enhance_batch_score
    split_ifs <;> linarith
  · intro x y hx hxy hy
    unfold enhance_batch_score
    split_ifs <;> linarith
  · intro x y hx hxy
    unfold enhance_batch_score
    split_ifs <;> linarith

/-- Claim C1 amended, witness: concrete instances of the hypotheses of the
monotonicity clauses, discharged at 0.05 ≤ 0.1 (ENHANCE, below 0.3) and at
0.65 ≤ 0.7 (BATCH_ENHANCE, from 0.6 on). -/
theorem claim_C1_amended_witness :
    ((0.05 : ℚ) ≤ 0.1 ∧ (0.1 : ℚ) < 0.3 ∧
      enhance_similarity_score 0.05 ≤ enhance_similarity_score 0.1) ∧
    ((0.6 : ℚ) ≤ 0.65 ∧ (0.65 : ℚ) ≤ 0.7 ∧
      enhance_batch_score 0.65 ≤ enhance_batch_score 0.7) :=
  ⟨⟨by norm_num, by norm_num,
      claim_C1_amended.2.2.1 0.05 0.1 (by norm_num) (by norm_num)⟩,
    ⟨by norm_num, by norm_num,
      claim_C1_amended.2.2.2.2.2.2.2.2.2.1 0.65 0.7 (by norm_num) (by norm_num)⟩⟩

/-! ### String primitives

The Python string operations used by the section extractor, modelled
structurally over the character list of a string so that they are fully
executable.  pyIsSpace is the Python str whitespace set. -/

def pyIsSpace (c : Char) : Bool :=
  c == ' ' || c == '\t' || c == '\n' || c == '\r' || c == '\x0b' || c == '\x0c'

/-- Python str.lower (ASCII case folding, as Char.toLower). -/
def pyLower (s : String) : String := String.mk (s.data.map Char.toLower)

/-- Python str.strip(): remove leading and trailing whitespace. -/
def pyStrip (s : String) : String :=
  String.mk (((s.data.dropWhile pyIsSpace).reverse.dropWhile pyIsSpace).reverse)

def splitNlAux : List Char → List Char → List (List Char)
  | [], cur => [cur.reverse]
  | c :: rest, cur =>
    if c == '\n' then cur.reverse :: splitNlAux rest []
    else splitNlAux rest (c :: cur)

/-- Python content.split(chr(10)). -/
def pySplitLines (s : String) : List String := (splitNlAux s.data []).map String.mk

/-- Python chr(10).join(lines). -/
def pyJoinLines : List String → String
  | [] => ""
  | [x] => x
  | x :: rest => String.mk (x.data ++ '\n' :: (pyJoinLines rest).data)

def listOccurs (needle : List Char) : List Char → Bool
  | [] => needle.isEmpty
  | c :: rest => List.isPrefixOf needle (c :: rest) || listOccurs needle rest

/-- Python substring membership: needle in haystack. -/
def strContains (haystack needle : String) : Bool :=
  listOccurs needle.data haystack.data

/-! ### Section extractor (src/core/document_processor.py) -/

/-- Keyword patterns for the skills section (extract_key_sections). -/
def skills_patterns : List String :=
  ["skills", "technical skills", "competencies", "technologies"]

/-- Keyword patterns for the experience section (extract_key_sections). -/
def exp_patterns : List String :=
  ["experience", "work experience", "employment", "professional experience"]

/-- Keyword patterns for the education section (extract_key_sections). -/
def edu_patterns : List String :=
  ["education", "academic", "qualifications", "degrees"]

/-- The common_sections list inside _extract_section_by_patterns. -/
def common_section_headers : List String :=
  ["summary", "objective", "skills", "experience", "education",
   "projects", "certifications", "awards", "references"]

/-- The line loop of DocumentProcessor._extract_section_by_patterns: a line
matching a pattern opens the section (and is skipped); once open, a line
matching a different recognized section header closes it; non-blank lines
inside the open section are accumulated. -/
def extract_section_loop (patterns : List String) :
    List String → Bool → List String → List String
  | [], _, acc => acc
  | line :: rest, inSec, acc =>
    let lineLower := pyStrip (pyLower line)
    if patterns.any (fun p => strContains lineLower p) then
      extract_section_loop patterns rest true acc
    else if inSec && common_section_headers.any (fun s => strContains lineLower s)
            && !(patterns.any (fun p => strContains lineLower p)) then
      acc
    else if inSec && !(pyStrip line = "") then
      extract_section_loop patterns rest inSec (acc ++ [line])
    else
      extract_section_loop patterns rest inSec acc

/-- Source: DocumentProcessor._extract_section_by_patterns. -/
def extract_section_by_patterns (content : String) (patterns : List String) : String :=
  pyStrip (pyJoinLines (extract_section_loop patterns (pySplitLines content) false []))

def lookupKey : List (String × String) → String → Option String
  | [], _ => none
  | (k0, v) :: rest, k => if k0 = k then some v else lookupKey rest k

/-- Assignment to an existing key of a Python dict, on the association-list
model of the dict (keys stay in insertion order). -/
def setKey : List (String × String) → String → String → List (String × String)
  | [], _, _ => []
  | (k0, v0) :: rest, k, v =>
    if k0 = k then (k, v) :: setKey rest k v else (k0, v0) :: setKey rest k v

/-- Source: DocumentProcessor.extract_key_sections.  Builds the fixed
five-key mapping and fills the three keyword sections by independent
pattern scans. -/
def extract_key_sections (content : String) : List (String × String) :=
  let sections := [("skills", ""), ("experience", ""), ("education", ""),
    ("summary", ""), ("full_content", content)]
  let s1 := setKey sections "skills" (extract_section_by_patterns content skills_patterns)
  let s2 := setKey s1 "experience" (extract_section_by_patterns content exp_patterns)
  setKey s2 "education" (extract_section_by_patterns content edu_patterns)

lemma extract_loop_no_match (patterns : List String) :
    ∀ lines : List String,
      (∀ l ∈ lines, patterns.any (fun p => strContains (pyStrip (pyLower l)) p) = false) →
      extract_section_loop patterns lines false [] = []
  | [], _ => rfl
  | l :: rest, h => by
    have hl := h l (List.mem_cons_self l rest)
    have hrest := fun x hx => h x (List.mem_cons_of_mem l hx)
    unfold extract_section_loop
    rw [if_neg (by simp [hl]), if_neg (by simp), if_neg (by simp)]
    exact extract_loop_no_match patterns rest hrest

lemma extract_empty_of_no_match (content : String) (patterns : List String)
    (h : ∀ l ∈ pySplitLines content,
      patterns.any (fun p => strContains (pyStrip (pyLower l)) p) = false) :
    extract_section_by_patterns content patterns = "" := by
  unfold extract_section_by_patterns
  rw [extract_loop_no_match patterns (pySplitLines content) h]
  rfl

lemma lookup_skills (content : String) :
    lookupKey (extract_key_sections content) "skills" =
      some (extract_section_by_patterns content skills_patterns) := rfl

lemma lookup_experience (content : String) :
    lookupKey (extract_key_sections content) "experience" =
      some (extract_section_by_patterns content exp_patterns) := rfl

lemma lookup_education (content : String) :
    lookupKey (extract_key_sections content) "education" =
      some (extract_section_by_patterns content edu_patterns) := rfl

/-- Claim C8: for every input string the extractor returns a mapping with
exactly the fixed keys skills, experience, education, summary and
full_content, in which full_content is the unmodified input, and a section
whose keyword patterns match no line of the input comes out as the empty
string. -/
theorem claim_C8 (content : String) :
    (extract_key_sections content).map Prod.fst =
      ["skills", "experience", "education", "summary", "full_content"] ∧
    lookupKey (extract_key_sections content) "full_content" = some content ∧
    ((∀ l ∈ pySplitLines content,
        skills_patterns.any (fun p => strContains (pyStrip (pyLower l)) p) = false) →
      lookupKey (extract_key_sections content) "skills" = some "") ∧
    ((∀ l ∈ pySplitLines content,
        exp_patterns.any (fun p => strContains (pyStrip (pyLower l)) p) = false) →
      lookupKey (extract_key_sections content) "experience" = some "") ∧
    ((∀ l ∈ pySplitLines content,
        edu_patterns.any (fun p => strContains (pyStrip (pyLower l)) p) = false) →
      lookupKey (extract_key_sections content) "education" = some "") := by
  refine ⟨rfl, rfl, ?_, ?_, ?_⟩
  · intro h
    rw [lookup_skills, extract_empty_of_no_match content skills_patterns h]
  · intro h
    rw [lookup_experience, extract_empty_of_no_match content exp_patterns h]
  · intro h
    rw [lookup_education, extract_empty_of_no_match content edu_patterns h]

/-- Claim C8, witness: on the input "hello\nworld" no keyword set matches
any line, and all three keyword sections come out empty. -/
theorem claim_C8_witness :
    (∀ l ∈ pySplitLines "hello\nworld",
      skills_patterns.any (fun p => strContains (pyStrip (pyLower l)) p) = false) ∧
    (∀ l ∈ pySplitLines "hello\nworld",
      exp_patterns.any (fun p => strContains (pyStrip (pyLower l)) p) = false) ∧
    (∀ l ∈ pySplitLines "hello\nworld",
      edu_patterns.any (fun p => strContains (pyStrip (pyLower l)) p) = false) ∧
    lookupKey (extract_key_sections "hello\nworld") "skills" = some "" ∧
    lookupKey (extract_key_sections "hello\nworld") "experience" = some "" ∧
    lookupKey (extract_key_sections "hello\nworld") "education" = some "" :=
  ⟨by decide, by decide, by decide,
    (claim_C8 "hello\nworld").2.2.1 (by decide),
    (claim_C8 "hello\nworld").2.2.2.1 (by decide),
    (claim_C8 "hello\nworld").2.2.2.2 (by decide)⟩

/-- Claim C10: the extractor never populates the summary section: for every
input string the returned mapping has summary equal to the empty string. -/
theorem claim_C10 (content : String) :
    lookupKey (extract_key_sections content) "summary" = some "" := rfl

/-- Claim C6 counterexample: the line "skills experience" matches the
skills keyword set (the earliest section in the claimed evaluation order),
yet it also opens the experience section for that same line: on the input
"skills experience\nalpha" the experience section comes out as "alpha"
instead of staying empty, so the claimed first-match-wins rule fails. -/
theorem claim_C6_counterexample :
    skills_patterns.any
      (fun p => strContains (pyStrip (pyLower "skills experience")) p) = true ∧
    exp_patterns.any
      (fun p => strContains (pyStrip (pyLower "skills experience")) p) = true ∧
    lookupKey (extract_key_sections "skills experience\nalpha") "skills" =
      some "alpha" ∧
    lookupKey (extract_key_sections "skills experience\nalpha") "experience" =
      some "alpha" := by
  refine ⟨by decide, by decide, by decide, by decide⟩

/-- Claim C6 (amended): each target section is extracted by its own
independent top-to-bottom scan that consults only that section's keyword
patterns; the fixed skills, experience, education order is merely the order
the three scans run and carries no first-match-wins rule across sections,
so a line matching several keyword sets opens each of those sections (for
the input "skills experience\nalpha" both skills and experience receive
"alpha"). -/
theorem claim_C6_amended :
    (∀ content : String,
      lookupKey (extract_key_sections content) "skills" =
        some (extract_section_by_patterns content skills_patterns) ∧
      lookupKey (extract_key_sections content) "experience" =
        some (extract_section_by_patterns content exp_patterns) ∧
      lookupKey (extract_key_sections content) "education" =
        some (extract_section_by_patterns content edu_patterns)) ∧
    lookupKey (extract_key_sections "skills experience\nalpha") "skills" =
      some "alpha" ∧
    lookupKey (extract_key_sections "skills experience\nalpha") "experience" =
      some "alpha" :=
  ⟨fun content =>
    ⟨lookup_skills content, lookup_experience content, lookup_education content⟩,
    by decide, by decide⟩

/-! ### Final score boost (src/core/similarity_calculator.py) -/

/-- Source: SimilarityCalculator.apply_final_score_boost.  math.sqrt is
modelled by Real.sqrt, so the transform lives on the reals. -/
noncomputable def apply_final_score_boost (score : ℝ) : ℝ :=
  let boosted := Real.sqrt score * 0.85 + score * 0.15
  let boosted2 := if boosted > 0.25 then boosted * 1.2 else boosted
  min 1.0 boosted2

/-- Claim C4: BOOST maps 0 to 0, is monotone non-decreasing on [0,1], and
sends [0,1] into [0,1]. -/
theorem claim_C4 :
    apply_final_score_boost 0 = 0 ∧
    (∀ x y : ℝ, 0 ≤ x → x ≤ y → y ≤ 1 →
      apply_final_score_boost x ≤ apply_final_score_boost y) ∧
    (∀ x : ℝ, 0 ≤ x → x ≤ 1 →
      0 ≤ apply_final_score_boost x ∧ apply_final_score_boost x ≤ 1) := by
  refine ⟨?_, ?_, ?_⟩
  · simp only [apply_final_score_boost, Real.sqrt_zero]
    norm_num
  · intro x y hx hxy hy1
    have hsq : Real.sqrt x ≤ Real.sqrt y := Real.sqrt_le_sqrt hxy
    simp only [apply_final_score_boost]
    split_ifs with h1 h2 h2
    · exact min_le_min (le_refl (1.0 : ℝ)) (by linarith)
    · linarith
    · refine le_min (min_le_left _ _) ?_
      have := min_le_right (1.0 : ℝ) (Real.sqrt x * 0.85 + x * 0.15)
      linarith
    · exact min_le_min (le_refl (1.0 : ℝ)) (by linarith)
  · intro x hx hx1
    have hsq : 0 ≤ Real.sqrt x := Real.sqrt_nonneg x
    constructor
    · simp only [apply_final_score_boost]
      refine le_min (by norm_num) ?_
      split_ifs with h <;> linarith
    · simp only [apply_final_score_boost]
      exact le_trans (min_le_left _ _) (by norm_num)

/-- Claim C4, witness: the monotonicity clause applied at 0 ≤ 1/2 ≤ 1, and
the range clause at 1/2. -/
theorem claim_C4_witness :
    ((0 : ℝ) ≤ 0 ∧ (0 : ℝ) ≤ 1 / 2 ∧ (1 / 2 : ℝ) ≤ 1 ∧
      apply_final_score_boost 0 ≤ apply_final_score_boost (1 / 2)) ∧
    (0 ≤ apply_final_score_boost (1 / 2) ∧ apply_final_score_boost (1 / 2) ≤ 1) :=
  ⟨⟨le_refl 0, by norm_num, by norm_num,
      claim_C4.2.1 0 (1 / 2) (le_refl 0) (by norm_num) (by norm_num)⟩,
    claim_C4.2.2 (1 / 2) (by norm_num) (by norm_num)⟩

/-! ### SimilarityScore, percentage and grade (src/models/analysis_result.py) -/

/-- Source: the SimilarityScore dataclass. -/
structure SimilarityScore where
  overall_score : ℚ
  section_scores : List (String × ℚ)
  confidence : ℚ
  reasoning : String
deriving DecidableEq

/-- Round-half-to-even on the rationals, the rounding rule of Python round. -/
def roundHalfEven (x : ℚ) : ℤ :=
  let f := ⌊x⌋
  let r := x - f
  if r < 1 / 2 then f
  else if 1 / 2 < r then f + 1
  else if f % 2 = 0 then f else f + 1

/-- Python round(value, 2) on the exact decimal model. -/
def round2 (x : ℚ) : ℚ := (roundHalfEven (x * 100) : ℚ) / 100

/-- Source: SimilarityScore.get_score_percentage, round(overall*100, 2). -/
def get_score_percentage (s : SimilarityScore) : ℚ := round2 (s.overall_score * 100)

/-- Source: SimilarityScore.get_grade. -/
def get_grade (s : SimilarityScore) : String :=
  let score_pct := get_score_percentage s
  if score_pct ≥ 80 then "A"
  else if score_pct ≥ 70 then "B"
  else if score_pct ≥ 60 then "C"
  else if score_pct ≥ 50 then "D"
  else "F"

/-- The grade thresholds exactly as the spec states them, as a function of
the percentage alone. -/
def grade_of_percentage (p : ℚ) : String :=
  if p ≥ 80 then "A"
  else if p ≥ 70 then "B"
  else if p ≥ 60 then "C"
  else if p ≥ 50 then "D"
  else "F"

/-- Claim C7: the percentage is round(overall*100, 2), the grade is a pure
function of the percentage through the 80/70/60/50 thresholds, the grade at
percentage 80.0 is "A" and at 79.9 is "B", and the 70/60/50 boundaries are
exact. -/
theorem claim_C7 :
    (∀ s : SimilarityScore, get_score_percentage s = round2 (s.overall_score * 100)) ∧
    (∀ s : SimilarityScore, get_grade s = grade_of_percentage (get_score_percentage s)) ∧
    get_score_percentage ⟨0.8, [], 0, ""⟩ = 80 ∧
    get_grade ⟨0.8, [], 0, ""⟩ = "A" ∧
    get_score_percentage ⟨0.799, [], 0, ""⟩ = 79.9 ∧
    get_grade ⟨0.799, [], 0, ""⟩ = "B" ∧
    get_grade ⟨0.7, [], 0, ""⟩ = "B" ∧
    get_grade ⟨0.699, [], 0, ""⟩ = "C" ∧
    get_grade ⟨0.6, [], 0, ""⟩ = "C" ∧
    get_grade ⟨0.599, [], 0, ""⟩ = "D" ∧
    get_grade ⟨0.5, [], 0, ""⟩ = "D" ∧
    get_grade ⟨0.499, [], 0, ""⟩ = "F" := by
  refine ⟨fun s => rfl, fun s => rfl, ?_, ?_, ?_, ?_, ?_, ?_, ?_, ?_, ?_, ?_⟩ <;>
    · simp only [get_grade, get_score_percentage, round2, roundHalfEven,
        grade_of_percentage]
      norm_num

/-! ### Resume documents and single-mode confidence
(src/models/resume_model.py, src/services/resume_analyzer.py) -/

/-- Source: the ResumeDocument dataclass (the timestamp, an external
side effect of construction, is omitted). -/
structure ResumeDocument where
  id : String
  file_path : String
  content : String
  sections : List (String × String)
  embedding : Option (List ℚ) := none
deriving DecidableEq

/-- Source: ResumeDocument.has_section - the key is present and its
stripped value is non-empty. -/
def ResumeDocument.has_section (r : ResumeDocument) (s : String) : Bool :=
  match lookupKey r.sections s with
  | some v => !(pyStrip v = "")
  | none => false

/-- numpy.var with default arguments: population variance, the mean of the
squared deviations from the mean. -/
def np_var (xs : List ℚ) : ℚ :=
  let n : ℚ := xs.length
  let m := xs.sum / n
  ((xs.map fun x => (x - m) ^ 2).sum) / n

/-- Source: ResumeAnalyzer._calculate_confidence. -/
def calculate_confidence (section_scores : List (String × ℚ))
    (resume_doc : ResumeDocument) : ℚ :=
  let available_sections :=
    (["skills", "experience", "education"].filter
      fun s => resume_doc.has_section s).length
  let section_coverage : ℚ := (available_sections : ℚ) / 3
  let consistency_factor : ℚ :=
    if 1 < section_scores.length then
      let scores := section_scores.map Prod.snd
      let score_variance := if 1 < scores.length then np_var scores else 0
      max 0 (1 - score_variance)
    else 0.5
  let confidence := section_coverage * 0.6 + consistency_factor * 0.4
  min 1.0 (max 0.1 confidence)

/-- The confidence formula exactly as claim C5 states it: 0.6 times the
fraction of the three key sections present plus 0.4 times
max(0, 1 - variance of the section scores), clamped to [0.1, 1]. -/
def confidence_claim_formula (section_scores : List (String × ℚ))
    (resume_doc : ResumeDocument) : ℚ :=
  let coverage : ℚ :=
    ((["skills", "experience", "education"].filter
      fun s => resume_doc.has_section s).length : ℚ) / 3
  let consistency := max 0 (1 - np_var (section_scores.map Prod.snd))
  min 1.0 (max 0.1 (0.6 * coverage + 0.4 * consistency))

/-- The confidence formula with the single-score case the code actually
has: with at most one section score the consistency factor is the constant
0.5 rather than max(0, 1 - variance). -/
def confidence_amended_formula (section_scores : List (String × ℚ))
    (resume_doc : ResumeDocument) : ℚ :=
  let coverage : ℚ :=
    ((["skills", "experience", "education"].filter
      fun s => resume_doc.has_section s).length : ℚ) / 3
  let consistency :=
    if 1 < section_scores.length
    then max 0 (1 - np_var (section_scores.map Prod.snd))
    else 0.5
  min 1.0 (max 0.1 (0.6 * coverage + 0.4 * consistency))

/-- A resume whose three key sections are all empty. -/
def resume_with_no_sections : ResumeDocument :=
  { id := "d1", file_path := "p", content := "c",
    sections := [("skills", ""), ("experience", ""), ("education", ""),
      ("summary", ""), ("full_content", "c")] }

/-- Claim C5 counterexample: with the single section score
("full_content", 1/2) and no key sections present, the code computes
confidence 0.2 (consistency factor 0.5) while the claimed formula gives
0.4 (variance of the single score is 0). -/
theorem claim_C5_counterexample :
    calculate_confidence [("full_content", 1 / 2)] resume_with_no_sections = 1 / 5 ∧
    confidence_claim_formula [("full_content", 1 / 2)] resume_with_no_sections = 2 / 5 ∧
    calculate_confidence [("full_content", 1 / 2)] resume_with_no_sections ≠
      confidence_claim_formula [("full_content", 1 / 2)] resume_with_no_sections := by
  have hfilter : (["skills", "experience", "education"].filter
      fun s => resume_with_no_sections.has_section s) = [] := rfl
  refine ⟨?_, ?_, ?_⟩
  · unfold calculate_confidence
    rw [hfilter]
    norm_num [min_def, max_def]
  · unfold confidence_claim_formula
    rw [hfilter]
    norm_num [min_def, max_def, np_var]
  · unfold calculate_confidence confidence_claim_formula
    rw [hfilter]
    norm_num [min_def, max_def, np_var]

/-- Claim C5 (amended): the single-mode confidence is 0.6 times the
fraction of the three key sections present plus 0.4 times a consistency
factor, clamped to [0.1, 1]; with two or more section scores the
consistency factor is max(0, 1 - variance of the scores), and with at most
one section score it is the constant 0.5. -/
theorem claim_C5_amended (section_scores : List (String × ℚ))
    (resume_doc : ResumeDocument) :
    calculate_confidence section_scores resume_doc =
      confidence_amended_formula section_scores resume_doc := by
  unfold calculate_confidence confidence_amended_formula
  simp only [List.length_map]
  by_cases h : 1 < section_scores.length
  · simp only [if_pos h]
    ring_nf
  · simp only [if_neg h]
    ring_nf

/-! ### Batch pipeline (src/services/batch_processor.py)

The external collaborators are parameters: load (text extraction from a
file), embed (the embedding provider), mk_id (uuid4), raw_sim (the raw
cosine of the job embedding with a section embedding) and store_query
(the vector index answer for the job embedding). -/

/-- The metadata record the batch indexer stores with each embedding
(each section truncated to 500 characters). -/
structure StoreMetadata where
  resume_id : String
  file_path : String
  skills : String
  experience : String
  education : String
  summary : String
deriving DecidableEq

/-- One raw result row of a vector-index query: stored document text,
distance to the query vector, stored metadata. -/
structure QueryHit where
  doc : String
  distance : ℚ
  metadata : StoreMetadata

/-- Source: VectorStoreManager.similarity_search.  Each distance is
converted to a similarity via 1/(1+distance); the three parallel result
lists that the source returns are consumed zipped back together by the
caller, which is the triple list built here. -/
def similarity_search (hits : List QueryHit) : List (String × ℚ × StoreMetadata) :=
  hits.map fun h => (h.doc, 1 / (1 + h.distance), h.metadata)

/-- Source: ResumeCollection.get_resume_by_id (first match by id). -/
def get_resume_by_id : List ResumeDocument → String → Option ResumeDocument
  | [], _ => none
  | r :: rest, resume_id =>
    if r.id = resume_id then some r else get_resume_by_id rest resume_id

def splitCharAux (sep : Char) : List Char → List Char → List (List Char)
  | [], cur => [cur.reverse]
  | c :: rest, cur =>
    if c == sep then cur.reverse :: splitCharAux sep rest []
    else splitCharAux sep rest (c :: cur)

/-- Python s.split(sep) for a one-character separator. -/
def pySplitOn (s : String) (sep : Char) : List String :=
  (splitCharAux sep s.data []).map String.mk

/-- POSIX os.path.basename: the part after the last slash. -/
def basename_of (p : String) : String := ((pySplitOn p '/').getLast?).getD p

def lastDotAux : List Char → Nat → Option Nat → Option Nat
  | [], _, best => best
  | c :: rest, i, best =>
    lastDotAux rest (i + 1) (if c == '.' then some i else best)

/-- The stem of os.path.splitext: drop the extension starting at the last
dot, where the leading dots of the name never count as a separator. -/
def splitext_stem (name : String) : String :=
  let cs := name.data
  let lead := (cs.takeWhile fun c => c == '.').length
  let rest := cs.drop lead
  match lastDotAux rest 0 none with
  | some p => String.mk (cs.take (lead + p))
  | none => name

/-- Source: BatchProcessor._get_exact_filename. -/
def get_exact_filename (file_path : String) : String :=
  splitext_stem (basename_of file_path)

/-- Source: BatchProcessor._generate_positive_reasoning. -/
def generate_positive_reasoning (score : ℚ)
    (_section_scores : List (String × ℚ)) : String :=
  if score ≥ 0.75 then
    "Excellent candidate with strong qualifications and experience alignment."
  else if score ≥ 0.60 then
    "Strong candidate with relevant skills and good potential fit."
  else if score ≥ 0.45 then
    "Promising candidate with applicable experience and transferable skills."
  else if score ≥ 0.30 then
    "Potential candidate worth considering with some relevant background."
  else
    "Candidate may have hidden potential - recommend manual review."

/-- Source: BatchProcessor._calculate_detailed_similarity_score.  Every
non-blank section is re-scored through raw_sim and BATCH_ENHANCE; the
overall score is BATCH_ENHANCE of the query-stage base score and the
confidence is min(1, overall + 0.1). -/
def calculate_detailed_similarity_score (raw_sim : String → ℚ)
    (resume_doc : ResumeDocument) (base_score : ℚ) : SimilarityScore :=
  let section_scores := resume_doc.sections.filterMap fun sec =>
    if pyStrip sec.2 = "" then none
    else some (sec.1, enhance_batch_score (raw_sim sec.2))
  let enhanced_base_score := enhance_batch_score base_score
  { overall_score := enhanced_base_score,
    section_scores := section_scores,
    confidence := min 1.0 (enhanced_base_score + 0.1),
    reasoning := generate_positive_reasoning enhanced_base_score section_scores }

/-- Source: BatchProcessor._generate_candidate_highlights (first three of
the four candidate highlights, in fixed priority order). -/
def generate_candidate_highlights (resume_doc : ResumeDocument) : List String :=
  ((if strContains (pyLower resume_doc.content) "year"
      then ["Demonstrated work experience"] else []) ++
    (if resume_doc.has_section "education"
      then ["Relevant educational background"] else []) ++
    (if resume_doc.has_section "skills"
      then ["Technical skills listed"] else []) ++
    (if 2000 < resume_doc.content.length
      then ["Comprehensive resume with detailed experience"] else [])).take 3

/-- Source: the CandidateRanking dataclass. -/
structure CandidateRanking where
  rank : ℕ
  resume_id : String
  candidate_name : String
  similarity_score : SimilarityScore
  key_highlights : List String
deriving DecidableEq

/-- The enumerated loop of BatchProcessor._rank_candidates: i counts every
query result row, a row whose resume id does not resolve in the collection
is skipped (but still consumes its index), and a resolved row is ranked
i + 1 with the detailed score computed from the query-stage similarity. -/
def rank_loop (resumes : List ResumeDocument) (raw_sim : String → ℚ) :
    List (String × ℚ × StoreMetadata) → ℕ → List CandidateRanking
  | [], _ => []
  | (_, score, metadata) :: rest, i =>
    match get_resume_by_id resumes metadata.resume_id with
    | some resume_doc =>
      { rank := i + 1,
        resume_id := get_exact_filename resume_doc.file_path,
        candidate_name := get_exact_filename resume_doc.file_path,
        similarity_score :=
          calculate_detailed_similarity_score raw_sim resume_doc score,
        key_highlights := generate_candidate_highlights resume_doc } ::
        rank_loop resumes raw_sim rest (i + 1)
    | none => rank_loop resumes raw_sim rest (i + 1)

/-- Source: BatchProcessor._rank_candidates: enumerate the query results,
rank by enumeration position, truncate to the first top_n. -/
def rank_candidates (resumes : List ResumeDocument) (raw_sim : String → ℚ)
    (query_results : List (String × ℚ × StoreMetadata)) (top_n : ℕ) :
    List CandidateRanking :=
  (rank_loop resumes raw_sim query_results 0).take top_n

lemma rank_loop_length (resumes : List ResumeDocument) (raw_sim : String → ℚ) :
    ∀ (hits : List QueryHit) (i : ℕ),
      (∀ h ∈ hits, (get_resume_by_id resumes h.metadata.resume_id).isSome = true) →
      (rank_loop resumes raw_sim (similarity_search hits) i).length = hits.length := by
  intro hits
  induction hits with
  | nil => intro i _; rfl
  | cons h t ih =>
    intro i hres
    obtain ⟨r, hr⟩ := Option.isSome_iff_exists.mp (hres h (List.mem_cons_self h t))
    have hrec := ih (i + 1) fun x hx => hres x (List.mem_cons_of_mem h hx)
    simp only [similarity_search, List.map_cons] at hrec ⊢
    simp only [rank_loop, hr, List.length_cons, hrec]

lemma rank_loop_map_rank (resumes : List ResumeDocument) (raw_sim : String → ℚ) :
    ∀ (hits : List QueryHit) (i : ℕ),
      (∀ h ∈ hits, (get_resume_by_id resumes h.metadata.resume_id).isSome = true) →
      (rank_loop resumes raw_sim (similarity_search hits) i).map (fun c => c.rank)
        = List.range' (i + 1) hits.length := by
  intro hits
  induction hits with
  | nil => intro i _; rfl
  | cons h t ih =>
    intro i hres
    obtain ⟨r, hr⟩ := Option.isSome_iff_exists.mp (hres h (List.mem_cons_self h t))
    have hrec := ih (i + 1) fun x hx => hres x (List.mem_cons_of_mem h hx)
    simp only [similarity_search, List.map_cons] at hrec ⊢
    simp only [rank_loop, hr, List.length_cons, List.map_cons, hrec,
      List.range'_succ]

lemma rank_loop_get? (resumes : List ResumeDocument) (raw_sim : String → ℚ) :
    ∀ (hits : List QueryHit) (i j : ℕ),
      (∀ h ∈ hits, (get_resume_by_id resumes h.metadata.resume_id).isSome = true) →
      j < hits.length →
      ∃ h cr, hits.get? j = some h ∧
        (rank_loop resumes raw_sim (similarity_search hits) i).get? j = some cr ∧
        cr.rank = i + j + 1 ∧
        cr.similarity_score.overall_score =
          enhance_batch_score (1 / (1 + h.distance)) := by
  intro hits
  induction hits with
  | nil => intro i j _ hj; exact absurd hj (by simp)
  | cons h t ih =>
    intro i j hres hj
    obtain ⟨r, hr⟩ := Option.isSome_iff_exists.mp (hres h (List.mem_cons_self h t))
    cases j with
    | zero =>
      refine ⟨h, ⟨i + 1, get_exact_filename r.file_path, get_exact_filename r.file_path,
        calculate_detailed_similarity_score raw_sim r (1 / (1 + h.distance)),
        generate_candidate_highlights r⟩, rfl, ?_, by simp, rfl⟩
      simp only [similarity_search, List.map_cons, rank_loop, hr, List.get?]
    | succ j =>
      have hj2 : j < t.length := by simpa using hj
      obtain ⟨h', cr, h1, h2, h3, h4⟩ :=
        ih (i + 1) j (fun x hx => hres x (List.mem_cons_of_mem h hx)) hj2
      refine ⟨h', cr, by simpa using h1, ?_, by omega, h4⟩
      simp only [similarity_search, List.map_cons, rank_loop, hr, List.get?]
      simpa [similarity_search] using h2

lemma range'_take : ∀ (n m s : ℕ), (List.range' s m).take n = List.range' s (min n m) := by
  intro n
  induction n with
  | zero => intro m s; simp
  | succ k ih =>
    intro m s
    cases m with
    | zero => simp
    | succ l =>
      rw [List.range'_succ, List.take_succ_cons, ih l (s + 1), Nat.succ_min_succ,
        List.range'_succ]

/-- What _rank_candidates guarantees whenever every query row resolves to a
document of the collection: as many rankings as min(top_n, #rows), ranks
1..len in row order, and the j-th ranking built from the j-th query row
with overall score BATCH_ENHANCE(1/(1+distance)). -/
lemma rank_candidates_spec (resumes : List ResumeDocument) (raw_sim : String → ℚ)
    (hits : List QueryHit) (top_n : ℕ)
    (hres : ∀ h ∈ hits, (get_resume_by_id resumes h.metadata.resume_id).isSome = true) :
    (rank_candidates resumes raw_sim (similarity_search hits) top_n).length =
      min top_n hits.length ∧
    (rank_candidates resumes raw_sim (similarity_search hits) top_n).map
        (fun c => c.rank) = List.range' 1 (min top_n hits.length) ∧
    ∀ j, j < min top_n hits.length →
      ∃ h cr, hits.get? j = some h ∧
        (rank_candidates resumes raw_sim (similarity_search hits) top_n).get? j
          = some cr ∧
        cr.rank = j + 1 ∧
        cr.similarity_score.overall_score =
          enhance_batch_score (1 / (1 + h.distance)) := by
  have hlen := rank_loop_length resumes raw_sim hits 0 hres
  have hmap := rank_loop_map_rank resumes raw_sim hits 0 hres
  refine ⟨?_, ?_, ?_⟩
  · rw [rank_candidates, List.length_take, hlen]
  · have hmap1 : (rank_loop resumes raw_sim (similarity_search hits) 0).map
        (fun c => c.rank) = List.range' 1 hits.length := by simpa using hmap
    rw [rank_candidates, List.map_take, hmap1, range'_take]
  · intro j hj
    have hj2 : j < hits.length := lt_of_lt_of_le hj (min_le_right _ _)
    have hj1 : j < top_n := lt_of_lt_of_le hj (min_le_left _ _)
    obtain ⟨h, cr, h1, h2, h3, h4⟩ := rank_loop_get? resumes raw_sim hits 0 j hres hj2
    refine ⟨h, cr, h1, ?_, by omega, h4⟩
    rw [rank_candidates, List.get?_take hj1, h2]

/-- Claim C2: when every query row resolves in the collection, the batch
rankings carry ranks 1..len with no gaps in the order of the query result
rows, each ranking's overall score is BATCH_ENHANCE of that row's
query-stage similarity 1/(1+distance) (order is locked before the detailed
re-score), and the list is truncated to at most top_n entries. -/
theorem claim_C2 (resumes : List ResumeDocument) (raw_sim : String → ℚ)
    (hits : List QueryHit) (top_n : ℕ)
    (hres : ∀ h ∈ hits, (get_resume_by_id resumes h.metadata.resume_id).isSome = true) :
    (rank_candidates resumes raw_sim (similarity_search hits) top_n).length =
      min top_n hits.length ∧
    (rank_candidates resumes raw_sim (similarity_search hits) top_n).map
        (fun c => c.rank) = List.range' 1 (min top_n hits.length) ∧
    ∀ j, j < min top_n hits.length →
      ∃ h cr, hits.get? j = some h ∧
        (rank_candidates resumes raw_sim (similarity_search hits) top_n).get? j
          = some cr ∧
        cr.rank = j + 1 ∧
        cr.similarity_score.overall_score =
          enhance_batch_score (1 / (1 + h.distance)) :=
  rank_candidates_spec resumes raw_sim hits top_n hres

/-- A one-document collection for exercising the ranking hypotheses. -/
def sample_resume : ResumeDocument :=
  { id := "r1", file_path := "dir/cv1.pdf", content := "",
    sections := [], embedding := some [1] }

/-- Claim C2, witness: a one-row query over a one-document collection with
top_n = 5; the resolution hypothesis is discharged by computation. -/
theorem claim_C2_witness :
    (∀ h ∈ ([⟨"", 0, ⟨"r1", "dir/cv1.pdf", "", "", "", ""⟩⟩] : List QueryHit),
      (get_resume_by_id [sample_resume] h.metadata.resume_id).isSome = true) ∧
    ((rank_candidates [sample_resume] (fun _ => 0)
        (similarity_search [⟨"", 0, ⟨"r1", "dir/cv1.pdf", "", "", "", ""⟩⟩]) 5).length =
      min 5 ([⟨"", 0, ⟨"r1", "dir/cv1.pdf", "", "", "", ""⟩⟩] : List QueryHit).length ∧
    (rank_candidates [sample_resume] (fun _ => 0)
        (similarity_search [⟨"", 0, ⟨"r1", "dir/cv1.pdf", "", "", "", ""⟩⟩]) 5).map
        (fun c => c.rank) =
      List.range' 1 (min 5 ([⟨"", 0, ⟨"r1", "dir/cv1.pdf", "", "", "", ""⟩⟩] : List QueryHit).length) ∧
    ∀ j, j < min 5 ([⟨"", 0, ⟨"r1", "dir/cv1.pdf", "", "", "", ""⟩⟩] : List QueryHit).length →
      ∃ h cr, ([⟨"", 0, ⟨"r1", "dir/cv1.pdf", "", "", "", ""⟩⟩] : List QueryHit).get? j = some h ∧
        (rank_candidates [sample_resume] (fun _ => 0)
          (similarity_search [⟨"", 0, ⟨"r1", "dir/cv1.pdf", "", "", "", ""⟩⟩]) 5).get? j
          = some cr ∧
        cr.rank = j + 1 ∧
        cr.similarity_score.overall_score =
          enhance_batch_score (1 / (1 + h.distance))) :=
  ⟨by decide,
    claim_C2 [sample_resume] (fun _ => 0)
      [⟨"", 0, ⟨"r1", "dir/cv1.pdf", "", "", "", ""⟩⟩] 5 (by decide)⟩

/-- The StoreMetadata record built for a resume during indexing, with each
section truncated to 500 characters, as in _index_resumes_in_vector_store. -/
def make_store_metadata (r : ResumeDocument) : StoreMetadata :=
  { resume_id := r.id, file_path := r.file_path,
    skills := ((lookupKey r.sections "skills").getD "").take 500,
    experience := ((lookupKey r.sections "experience").getD "").take 500,
    education := ((lookupKey r.sections "education").getD "").take 500,
    summary := ((lookupKey r.sections "summary").getD "").take 500 }

/-- Source: BatchProcessor._index_resumes_in_vector_store: after clearing
the store, every resume whose embedding is truthy (present and non-empty)
is inserted as (document text, embedding, metadata, id). -/
def index_entries (resumes : List ResumeDocument) :
    List (String × List ℚ × StoreMetadata × String) :=
  resumes.filterMap fun r =>
    match r.embedding with
    | some e =>
      if e.isEmpty then none else some (r.content, e, make_store_metadata r, r.id)
    | none => none

/-- Python truthiness of the embedding field: present and non-empty, the
indexing condition of the source. -/
def has_nonempty_embedding (r : ResumeDocument) : Bool :=
  match r.embedding with
  | some e => !e.isEmpty
  | none => false

/-- Source: BatchProcessor._process_single_resume, with the two external
steps as parameters: load is the text extraction of a file (none models an
extraction error), embed the embedding provider (none models an embedding
error), mk_id stands for uuid4. -/
def process_single_resume (load : String → Option String)
    (embed : String → Option (List ℚ)) (mk_id : String → String)
    (file_path : String) : Option ResumeDocument :=
  match load file_path with
  | none => none
  | some full_content =>
    match embed full_content with
    | none => none
    | some e =>
      some
        { id := mk_id file_path, file_path := file_path,
          content := full_content,
          sections := extract_key_sections full_content,
          embedding := some e }

/-- Source: BatchProcessor._process_resume_batch: each path is processed
independently and a failed item is dropped without failing the batch (the
completion order of the worker pool is modelled as input order). -/
def process_resume_batch (load : String → Option String)
    (embed : String → Option (List ℚ)) (mk_id : String → String)
    (resume_paths : List String) : List ResumeDocument :=
  resume_paths.filterMap (process_single_resume load embed mk_id)

def sortedInsert (x : ℚ) : List ℚ → List ℚ
  | [] => [x]
  | y :: t => if x ≤ y then x :: y :: t else y :: sortedInsert x t

def sortQ : List ℚ → List ℚ
  | [] => []
  | x :: t => sortedInsert x (sortQ t)

/-- numpy.median: middle of the sorted list, or the mean of the two middle
elements for an even length. -/
def np_median (xs : List ℚ) : ℚ :=
  let s := sortQ xs
  let n := s.length
  if n = 0 then 0
  else if n % 2 = 1 then s.getD (n / 2) 0
  else (s.getD (n / 2 - 1) 0 + s.getD (n / 2) 0) / 2

def list_max : List ℚ → ℚ
  | [] => 0
  | x :: t => t.foldl max x

def list_min : List ℚ → ℚ
  | [] => 0
  | x :: t => t.foldl min x

/-- The two shapes of the _generate_batch_summary mapping: the error
mapping for an empty ranking list, or the statistics record. -/
inductive BatchSummary where
  | empty_error : BatchSummary
  | stats (total_processed total_candidates : ℕ)
      (average_score median_score max_score min_score : ℚ)
      (excellent good fair poor : ℕ) : BatchSummary

/-- Source: BatchProcessor._generate_batch_summary, statistics of the
returned rankings (note the source histogram conditions: >0.8, 0.65..0.8,
0.5..<0.65, <0.5). -/
def generate_batch_summary (rankings : List CandidateRanking)
    (total_candidates : ℕ) : BatchSummary :=
  match rankings with
  | [] => .empty_error
  | _ =>
    let scores := rankings.map fun r => r.similarity_score.overall_score
    .stats rankings.length total_candidates
      (scores.sum / scores.length) (np_median scores)
      (list_max scores) (list_min scores)
      (scores.filter fun s => decide (0.8 < s)).length
      (scores.filter fun s => decide (0.65 ≤ s) && decide (s ≤ 0.8)).length
      (scores.filter fun s => decide (0.5 ≤ s) && decide (s < 0.65)).length
      (scores.filter fun s => decide (s < 0.5)).length

/-- The total_processed entry of a summary, when present. -/
def BatchSummary.total_processed? : BatchSummary → Option ℕ
  | .empty_error => none
  | .stats tp _ _ _ _ _ _ _ _ _ => some tp

/-- Source: the BatchAnalysisResult dataclass (timestamp omitted). -/
structure BatchAnalysisResult where
  job_description_id : String
  total_candidates : ℕ
  top_n_requested : ℕ
  rankings : List CandidateRanking
  analysis_summary : BatchSummary

/-- Source: BatchProcessor.process_batch_resumes, with the vector index
query as the parameter store_query: store_query entries k models the index
answer for the job embedding with n_results = k over exactly the indexed
entries (the source queries with k = number of processed resumes). -/
def process_batch_resumes (load : String → Option String)
    (embed : String → Option (List ℚ)) (mk_id : String → String)
    (raw_sim : String → ℚ)
    (store_query : List (String × List ℚ × StoreMetadata × String) → ℕ → List QueryHit)
    (job_description_id : String) (resume_paths : List String) (top_n : ℕ) :
    BatchAnalysisResult :=
  let resumes := process_resume_batch load embed mk_id resume_paths
  let hits := store_query (index_entries resumes) resumes.length
  let rankings := rank_candidates resumes raw_sim (similarity_search hits) top_n
  { job_description_id := job_description_id,
    total_candidates := resume_paths.length,
    top_n_requested := top_n,
    rankings := rankings,
    analysis_summary := generate_batch_summary rankings resume_paths.length }

lemma length_filterMap_of_isSome {α β : Type} (f : α → Option β) :
    ∀ l : List α, (∀ a ∈ l, (f a).isSome = true) →
      (l.filterMap f).length = l.length := by
  intro l
  induction l with
  | nil => intro _; rfl
  | cons a t ih =>
    intro h
    obtain ⟨b, hb⟩ := Option.isSome_iff_exists.mp (h a (List.mem_cons_self a t))
    rw [List.filterMap_cons, hb]
    simp [ih fun x hx => h x (List.mem_cons_of_mem a hx)]

lemma index_entries_length (resumes : List ResumeDocument)
    (h : ∀ r ∈ resumes, has_nonempty_embedding r = true) :
    (index_entries resumes).length = resumes.length := by
  unfold index_entries
  apply length_filterMap_of_isSome
  intro r hr
  have hne := h r hr
  unfold has_nonempty_embedding at hne
  cases hrem : r.embedding with
  | none => rw [hrem] at hne; simp at hne
  | some e =>
    rw [hrem] at hne
    simp only [Bool.not_eq_true'] at hne
    simp [hrem, hne]

lemma total_processed_of_summary (rankings : List CandidateRanking) (tc : ℕ) :
    (generate_batch_summary rankings tc).total_processed? =
      (if rankings.length = 0 then none else some rankings.length) := by
  cases rankings with
  | nil => rfl
  | cons r t => rfl

lemma rank_loop_length_le (resumes : List ResumeDocument) (raw_sim : String → ℚ) :
    ∀ (query_results : List (String × ℚ × StoreMetadata)) (i : ℕ),
      (rank_loop resumes raw_sim query_results i).length ≤ query_results.length := by
  intro qr
  induction qr with
  | nil => intro i; exact Nat.le_refl 0
  | cons row rest ih =>
    intro i
    obtain ⟨d, s, m⟩ := row
    cases hmatch : get_resume_by_id resumes m.resume_id with
    | some r =>
      simp only [rank_loop, hmatch, List.length_cons]
      exact Nat.succ_le_succ (ih (i + 1))
    | none =>
      simp only [rank_loop, hmatch, List.length_cons]
      exact Nat.le_succ_of_le (ih (i + 1))

lemma filterMap_length_eq_filter_isSome {α β : Type} (f : α → Option β) :
    ∀ l : List α,
      (l.filterMap f).length = (l.filter fun a => (f a).isSome).length := by
  intro l
  induction l with
  | nil => rfl
  | cons a t ih =>
    rw [List.filterMap_cons, List.filter_cons]
    cases hfa : f a with
    | none => simp [hfa, ih]
    | some b => simp [hfa, ih]

/-- Claim C3: for every batch run, also one containing failing documents:
every input path is counted in total_candidates whether or not its
document survives, the summary total_processed is the ranking count, the
rankings draw only on the successfully processed pool (so a document that
fails extraction or embedding is excluded from total_processed while still
counted in total_candidates), and that pool consists of exactly the paths
whose processing succeeds.  When additionally every processed document is
indexed and every query row resolves, the run returns exactly
min(top_n, #processed) rankings with ranks 1..len; at 10 successful
documents and top_n = 3 this gives exactly 3 rankings with ranks
[1, 2, 3] (see the witness, which runs one batch with a failing document
and one all-success batch). -/
theorem claim_C3 (load : String → Option String)
    (embed : String → Option (List ℚ)) (mk_id : String → String)
    (raw_sim : String → ℚ)
    (store_query : List (String × List ℚ × StoreMetadata × String) → ℕ → List QueryHit)
    (job_description_id : String) (resume_paths : List String) (top_n : ℕ)
    (hq_le : (store_query
        (index_entries (process_resume_batch load embed mk_id resume_paths))
        (process_resume_batch load embed mk_id resume_paths).length).length ≤
      (index_entries (process_resume_batch load embed mk_id resume_paths)).length) :
    (process_batch_resumes load embed mk_id raw_sim store_query
        job_description_id resume_paths top_n).total_candidates =
      resume_paths.length ∧
    (process_batch_resumes load embed mk_id raw_sim store_query
        job_description_id resume_paths top_n).analysis_summary.total_processed? =
      (if (process_batch_resumes load embed mk_id raw_sim store_query
            job_description_id resume_paths top_n).rankings.length = 0
        then none
        else some ((process_batch_resumes load embed mk_id raw_sim store_query
          job_description_id resume_paths top_n).rankings.length)) ∧
    (process_batch_resumes load embed mk_id raw_sim store_query
        job_description_id resume_paths top_n).rankings.length ≤
      min top_n (process_resume_batch load embed mk_id resume_paths).length ∧
    (process_resume_batch load embed mk_id resume_paths).length =
      (resume_paths.filter fun p =>
        (process_single_resume load embed mk_id p).isSome).length ∧
    ((∀ r ∈ process_resume_batch load embed mk_id resume_paths,
        has_nonempty_embedding r = true) →
      (store_query
          (index_entries (process_resume_batch load embed mk_id resume_paths))
          (process_resume_batch load embed mk_id resume_paths).length).length =
        (index_entries (process_resume_batch load embed mk_id resume_paths)).length →
      (∀ h ∈ store_query
          (index_entries (process_resume_batch load embed mk_id resume_paths))
          (process_resume_batch load embed mk_id resume_paths).length,
        (get_resume_by_id (process_resume_batch load embed mk_id resume_paths)
          h.metadata.resume_id).isSome = true) →
      (process_batch_resumes load embed mk_id raw_sim store_query
          job_description_id resume_paths top_n).rankings.length =
        min top_n (process_resume_batch load embed mk_id resume_paths).length ∧
      (process_batch_resumes load embed mk_id raw_sim store_query
          job_description_id resume_paths top_n).rankings.map (fun c => c.rank) =
        List.range' 1 ((process_batch_resumes load embed mk_id raw_sim store_query
          job_description_id resume_paths top_n).rankings.length)) := by
  have hrank : (process_batch_resumes load embed mk_id raw_sim store_query
      job_description_id resume_paths top_n).rankings =
    rank_candidates (process_resume_batch load embed mk_id resume_paths) raw_sim
      (similarity_search
        (store_query (index_entries (process_resume_batch load embed mk_id resume_paths))
          (process_resume_batch load embed mk_id resume_paths).length))
      top_n := rfl
  have hsum : (process_batch_resumes load embed mk_id raw_sim store_query
      job_description_id resume_paths top_n).analysis_summary =
    generate_batch_summary
      ((process_batch_resumes load embed mk_id raw_sim store_query
        job_description_id resume_paths top_n).rankings)
      resume_paths.length := rfl
  refine ⟨rfl, ?_, ?_, ?_, ?_⟩
  · rw [hsum, total_processed_of_summary]
  · rw [hrank]
    unfold rank_candidates
    rw [List.length_take]
    have h1 := rank_loop_length_le
      (process_resume_batch load embed mk_id resume_paths) raw_sim
      (similarity_search
        (store_query (index_entries (process_resume_batch load embed mk_id resume_paths))
          (process_resume_batch load embed mk_id resume_paths).length)) 0
    have h2 : (similarity_search
        (store_query (index_entries (process_resume_batch load embed mk_id resume_paths))
          (process_resume_batch load embed mk_id resume_paths).length)).length =
      (store_query (index_entries (process_resume_batch load embed mk_id resume_paths))
        (process_resume_batch load embed mk_id resume_paths).length).length := by
      unfold similarity_search
      exact List.length_map _ _
    have h3 : (index_entries (process_resume_batch load embed mk_id resume_paths)).length ≤
        (process_resume_batch load embed mk_id resume_paths).length :=
      List.length_filterMap_le _ _
    exact min_le_min (le_refl top_n) (by omega)
  · exact filterMap_length_eq_filter_isSome _ resume_paths
  · intro hemb hqlen hres
    have hlen2 := index_entries_length _ hemb
    obtain ⟨hclen, hcmap, _⟩ :=
      rank_candidates_spec (process_resume_batch load embed mk_id resume_paths)
        raw_sim
        (store_query (index_entries (process_resume_batch load embed mk_id resume_paths))
          (process_resume_batch load embed mk_id resume_paths).length)
        top_n hres
    constructor
    · rw [hrank, hclen, hqlen, hlen2]
    · rw [hrank, hcmap, hclen]

lemma rank_loop_nil_resumes (raw_sim : String → ℚ) :
    ∀ (query_results : List (String × ℚ × StoreMetadata)) (i : ℕ),
      rank_loop [] raw_sim query_results i = [] := by
  intro qr
  induction qr with
  | nil => intro i; rfl
  | cons row rest ih =>
    intro i
    obtain ⟨d, s, m⟩ := row
    simp only [rank_loop, get_resume_by_id, ih]

/-- Claim C9: a batch run in which every item fails (is dropped) returns a
BatchAnalysisResult whose ranking list is empty, whatever the vector index
answers; the embedded pipeline is a total function, so no error is raised.
-/
theorem claim_C9 (load : String → Option String)
    (embed : String → Option (List ℚ)) (mk_id : String → String)
    (raw_sim : String → ℚ)
    (store_query : List (String × List ℚ × StoreMetadata × String) → ℕ → List QueryHit)
    (job_description_id : String) (resume_paths : List String) (top_n : ℕ)
    (hfail : ∀ p ∈ resume_paths, process_single_resume load embed mk_id p = none) :
    (process_batch_resumes load embed mk_id raw_sim store_query
      job_description_id resume_paths top_n).rankings = [] := by
  have hempty : process_resume_batch load embed mk_id resume_paths = [] := by
    unfold process_resume_batch
    exact List.filterMap_eq_nil_iff.mpr hfail
  have hrank : (process_batch_resumes load embed mk_id raw_sim store_query
      job_description_id resume_paths top_n).rankings =
    rank_candidates (process_resume_batch load embed mk_id resume_paths) raw_sim
      (similarity_search
        (store_query (index_entries (process_resume_batch load embed mk_id resume_paths))
          (process_resume_batch load embed mk_id resume_paths).length))
      top_n := rfl
  rw [hrank, hempty]
  unfold rank_candidates
  rw [rank_loop_nil_resumes]
  exact List.take_nil

def ten_paths : List String :=
  ["p0.pdf", "p1.pdf", "p2.pdf", "p3.pdf", "p4.pdf",
   "p5.pdf", "p6.pdf", "p7.pdf", "p8.pdf", "p9.pdf"]

/-- A vector-index stub that answers with every indexed entry, in index
order, all at distance 0. -/
def echo_store_query :
    List (String × List ℚ × StoreMetadata × String) → ℕ → List QueryHit :=
  fun entries _ => entries.map fun e => ⟨e.1, 0, e.2.2.1⟩

def paths_with_failure : List String := ten_paths ++ ["bad.pdf"]

/-- A loader that fails on bad.pdf and succeeds on every other path. -/
def load_skipping_bad : String → Option String :=
  fun p => if p = "bad.pdf" then none else some ""

/-- Claim C3, witness.  First batch: 11 input paths of which bad.pdf fails
extraction - the failing document is counted in total_candidates (11) but
excluded from the processed pool (10 documents) and hence from
total_processed, and the run still returns exactly min 3 10 = 3 rankings
with ranks [1, 2, 3].  Second batch: the 10-document all-success run with
top_n = 3 from the claim, again 3 rankings with ranks [1, 2, 3]. -/
theorem claim_C3_witness :
    (process_single_resume load_skipping_bad (fun _ => some [1]) (fun s => s)
      "bad.pdf" = none) ∧
    "bad.pdf" ∈ paths_with_failure ∧
    paths_with_failure.length = 11 ∧
    (process_resume_batch load_skipping_bad (fun _ => some [1]) (fun s => s)
      paths_with_failure).length = 10 ∧
    (echo_store_query
        (index_entries (process_resume_batch load_skipping_bad (fun _ => some [1])
          (fun s => s) paths_with_failure))
        (process_resume_batch load_skipping_bad (fun _ => some [1]) (fun s => s)
          paths_with_failure).length).length ≤
      (index_entries (process_resume_batch load_skipping_bad (fun _ => some [1])
        (fun s => s) paths_with_failure)).length ∧
    ((process_batch_resumes load_skipping_bad (fun _ => some [1]) (fun s => s)
        (fun _ => 0) echo_store_query "job1" paths_with_failure 3).total_candidates =
      paths_with_failure.length ∧
    (process_batch_resumes load_skipping_bad (fun _ => some [1]) (fun s => s)
        (fun _ => 0) echo_store_query "job1" paths_with_failure 3).analysis_summary.total_processed? =
      (if (process_batch_resumes load_skipping_bad (fun _ => some [1]) (fun s => s)
            (fun _ => 0) echo_store_query "job1" paths_with_failure 3).rankings.length = 0
        then none
        else some ((process_batch_resumes load_skipping_bad (fun _ => some [1])
          (fun s => s) (fun _ => 0) echo_store_query "job1" paths_with_failure 3).rankings.length)) ∧
    (process_batch_resumes load_skipping_bad (fun _ => some [1]) (fun s => s)
        (fun _ => 0) echo_store_query "job1" paths_with_failure 3).rankings.length ≤
      min 3 (process_resume_batch load_skipping_bad (fun _ => some [1]) (fun s => s)
        paths_with_failure).length ∧
    (process_resume_batch load_skipping_bad (fun _ => some [1]) (fun s => s)
        paths_with_failure).length =
      (paths_with_failure.filter fun p =>
        (process_single_resume load_skipping_bad (fun _ => some [1])
          (fun s => s) p).isSome).length) ∧
    ((process_batch_resumes load_skipping_bad (fun _ => some [1]) (fun s => s)
        (fun _ => 0) echo_store_query "job1" paths_with_failure 3).rankings.length =
      min 3 (process_resume_batch load_skipping_bad (fun _ => some [1]) (fun s => s)
        paths_with_failure).length ∧
    (process_batch_resumes load_skipping_bad (fun _ => some [1]) (fun s => s)
        (fun _ => 0) echo_store_query "job1" paths_with_failure 3).rankings.map
        (fun c => c.rank) =
      List.range' 1 ((process_batch_resumes load_skipping_bad (fun _ => some [1])
        (fun s => s) (fun _ => 0) echo_store_query "job1" paths_with_failure 3).rankings.length)) ∧
    min 3 (10 : ℕ) = 3 ∧ List.range' 1 3 = [1, 2, 3] ∧
    ((process_batch_resumes (fun _ => some "") (fun _ => some [1]) (fun s => s)
        (fun _ => 0) echo_store_query "job1" ten_paths 3).rankings.length =
      min 3 (process_resume_batch (fun _ => some "") (fun _ => some [1]) (fun s => s)
        ten_paths).length ∧
    (process_batch_resumes (fun _ => some "") (fun _ => some [1]) (fun s => s)
        (fun _ => 0) echo_store_query "job1" ten_paths 3).rankings.map
        (fun c => c.rank) =
      List.range' 1 ((process_batch_resumes (fun _ => some "") (fun _ => some [1])
        (fun s => s) (fun _ => 0) echo_store_query "job1" ten_paths 3).rankings.length)) ∧
    (process_resume_batch (fun _ => some "") (fun _ => some [1]) (fun s => s)
      ten_paths).length = 10 :=
  have hA := claim_C3 load_skipping_bad (fun _ => some [1]) (fun s => s)
    (fun _ => 0) echo_store_query "job1" paths_with_failure 3 (by decide)
  have hB := claim_C3 (fun _ => some "") (fun _ => some [1]) (fun s => s)
    (fun _ => 0) echo_store_query "job1" ten_paths 3 (by decide)
  ⟨by decide, by decide, by decide, by decide, by decide,
    ⟨hA.1, hA.2.1, hA.2.2.1, hA.2.2.2.1⟩,
    hA.2.2.2.2 (by decide) (by decide) (by decide),
    by decide, by decide,
    hB.2.2.2.2 (by decide) (by decide) (by decide),
    by decide⟩

/-- Claim C9, witness: both items of a two-path batch fail, the index stub
even answers a junk row, and the rankings still come out empty. -/
theorem claim_C9_witness :
    (∀ p ∈ ["a.pdf", "b.pdf"],
      process_single_resume (fun _ => none) (fun _ => some [1]) (fun s => s) p
        = none) ∧
    (process_batch_resumes (fun _ => none) (fun _ => some [1]) (fun s => s)
      (fun _ => 0)
      (fun _ _ => [⟨"junk", 1, ⟨"ghost", "g", "", "", "", ""⟩⟩])
      "job1" ["a.pdf", "b.pdf"] 10).rankings = [] :=
  ⟨by decide,
    claim_C9 (fun _ => none) (fun _ => some [1]) (fun s => s) (fun _ => 0)
      (fun _ _ => [⟨"junk", 1, ⟨"ghost", "g", "", "", "", ""⟩⟩])
      "job1" ["a.pdf", "b.pdf"] 10 (by decide)⟩
